import Mathlib

/-
Shallow embedding of src/evac/pipeline.py: the SRA paired-read source
(sra_read_pair, sra_reader), the batching writer stack (BatchWriter,
FastqWriter, FifoWriter) and the completion step of star_pipeline.
Each definition is translated from the Python source; doc comments cite
the source lines and record, where the Python has an evident slip (a
missing self parameter, an unbound name), exactly how the embedding
reads it.
-/

/-- Python-level runtime errors raised by the embedded code paths:
TypeError (joining None, calling with a wrong argument count, passing a
file object where a path is required), ValueError (I/O on a closed
file), and a plain Exception carrying a message (raised by
sra_read_pair). -/
inductive PyErr where
  | typeError
  | valueError
  | exception (msg : String)
deriving DecidableEq

/-- One read as produced by sra_read_pair (source lines 30-41): the
tuple (name, sequence, qualities). -/
structure SraRead where
  name : String
  sequence : String
  qualities : String
deriving DecidableEq

/-- One fragment of an archive record as seen through the ngs iterator:
its bases, its qualities, and whether isPaired reports true for it. -/
structure Fragment where
  bases : String
  qualities : String
  paired : Bool
deriving DecidableEq

/-- One record fetched from the archive: the read name and the
fragments in iteration order. getNumFragments is the length of the
fragment list; the two nextFragment calls of sra_read_pair visit the
fragments in order. -/
structure SraRecord where
  name : String
  fragments : List Fragment
deriving DecidableEq

/-- Translation of sra_read_pair (source lines 17-43). It raises
Exception("Read NAME is not paired") when getNumFragments is not 2,
or when either fragment reports isPaired false; otherwise it returns
the pair of (name, bases, qualities) tuples. The wildcard match arm is
unreachable: it is guarded by the length test. -/
def sra_read_pair (r : SraRecord) : Except PyErr (SraRead × SraRead) :=
  let msg : PyErr := PyErr.exception ("Read " ++ r.name ++ " is not paired")
  if r.fragments.length ≠ 2 then Except.error msg
  else
    match r.fragments with
    | [f1, f2] =>
      if !f1.paired then Except.error msg
      else
        let read1 : SraRead := ⟨r.name, f1.bases, f1.qualities⟩
        if !f2.paired then Except.error msg
        else Except.ok (read1, ⟨r.name, f2.bases, f2.qualities⟩)
    | _ => Except.error msg

/-- Translation of the Python truthiness branch of sra_reader (source
lines 61-64): if max_reads is truthy it becomes min(read_count,
max_reads), otherwise (None or 0) it becomes read_count. -/
def effective_max_reads (read_count : Nat) (max_reads : Option Nat) : Nat :=
  match max_reads with
  | some m => if m ≠ 0 then min read_count m else read_count
  | none => read_count

/-- Python range(start, stop, step) for a positive step: the ascending
arithmetic progression from start strictly below stop. The Python call
raises ValueError on step 0, a case never exercised here (batch_size is
positive in every use); the embedding returns the empty list there. -/
def pyRange (start stop step : Nat) : List Nat :=
  if step = 0 then [] else List.range' start ((stop - start + step - 1) / step) step

/-- One-based record indices that the loop of sra_reader requests
(source lines 65-74): for each first_read in range(1, max_reads,
batch_size) it fetches cur_batch_size = min(batch_size, max_reads -
first_read + 1) records starting at first_read, yielding one pair per
record in ascending order. -/
def sra_reader_indices (read_count batch_size : Nat) (max_reads : Option Nat) : List Nat :=
  let m := effective_max_reads read_count max_reads
  (pyRange 1 m batch_size).flatMap (fun first_read =>
    let cur_batch_size := min batch_size (m - first_read + 1)
    (List.range cur_batch_size).map (fun read_idx => first_read + read_idx))

/-- Translation of sra_reader (source lines 45-74) over a collection
modelled as an indexing function from one-based record index to record,
together with the collection's total read count. Each requested record
is turned into a pair by sra_read_pair; an error there stops the
generator with that error, so no partial pair is ever produced. -/
def sra_reader (coll : Nat → SraRecord) (read_count batch_size : Nat)
    (max_reads : Option Nat) : Except PyErr (List (SraRead × SraRead)) :=
  (sra_reader_indices read_count batch_size max_reads).mapM
    (fun i => sra_read_pair (coll i))

/-- Sequence of writes received by the wrapped string writer: one entry
per call writer(block1, block2), recording the side-1 and side-2
strings of that call. -/
abbrev Writes := List (String × String)

/-- State of a BatchWriter (source lines 92-99): the configuration,
the two pre-allocated per-side line buffers (cells hold None until
populated), and the current write index. The wrapped writer is
modelled by the Writes trace threaded through the operations. -/
structure BatchWriter where
  batch_size : Nat
  lines_per_row : Nat
  linesep : String
  read1_batch : List (Option String)
  read2_batch : List (Option String)
  index : Nat
deriving DecidableEq

/-- Python str.join over a fetched cell list: raises TypeError if any
cell is still None, otherwise concatenates the strings with the
separator between them. -/
def joinCells (sep : String) (cells : List (Option String)) : Option String :=
  match cells.mapM (fun c => c) with
  | some strs => some (String.intercalate sep strs)
  | none => none

/-- Translation of BatchWriter.flush (source lines 129-146). If index <
batch_size only the first index cells of each side are joined,
otherwise the whole arrays are joined; the joined blocks are passed to
the writer as one call; unless last is set, one further writer call
with a lone line separator per side follows; finally index is reset to
0. A None cell reaching the join raises TypeError before the writer is
called, so the trace is unchanged in that case; the error carries the
trace as observed up to that point. -/
def BatchWriter.flush (last : Bool) (bw : BatchWriter) (out : Writes) :
    Except (PyErr × Writes) (BatchWriter × Writes) :=
  let cells1 := if bw.index < bw.batch_size then bw.read1_batch.take bw.index else bw.read1_batch
  let cells2 := if bw.index < bw.batch_size then bw.read2_batch.take bw.index else bw.read2_batch
  match joinCells bw.linesep cells1, joinCells bw.linesep cells2 with
  | some s1, some s2 =>
    let out2 := out ++ [(s1, s2)]
    let out3 := if last then out2 else out2 ++ [(bw.linesep, bw.linesep)]
    Except.ok ({ bw with index := 0 }, out3)
  | _, _ => Except.error (PyErr.typeError, out)

/-- Translation of BatchWriter.__call__ (source lines 107-119): both
reads are written into their side's buffer at the current index via the
subclass's add_to_batch rule, the index advances by lines_per_row, and
if the new index reaches batch_size the buffer is flushed (last=False).
Source slips read as their evident intent so the batching logic itself
can be examined: line 117 uses the unbound name lines_per_row (a
NameError at runtime), read here as self.lines_per_row; add_to_batch is
declared without self (line 164), so the bound call of line 115 would
raise TypeError — the embedding applies the five declared parameters. -/
def BatchWriter.call
    (add : String → String → String → List (Option String) → Nat → List (Option String))
    (read1 read2 : SraRead) (bw : BatchWriter) (out : Writes) :
    Except (PyErr × Writes) (BatchWriter × Writes) :=
  let b1 := add read1.name read1.sequence read1.qualities bw.read1_batch bw.index
  let b2 := add read2.name read2.sequence read2.qualities bw.read2_batch bw.index
  let bw2 := { bw with read1_batch := b1, read2_batch := b2,
                       index := bw.index + bw.lines_per_row }
  if bw2.index ≥ bw2.batch_size then BatchWriter.flush false bw2 out
  else Except.ok (bw2, out)

/-- Sequence of BatchWriter.__call__ invocations, one per read pair, as
performed by the producer loops of the pipelines (source lines
219-223): the first raised error stops the run. -/
def BatchWriter.feed
    (add : String → String → String → List (Option String) → Nat → List (Option String))
    (pairs : List (SraRead × SraRead)) (bw : BatchWriter) (out : Writes) :
    Except (PyErr × Writes) (BatchWriter × Writes) :=
  match pairs with
  | [] => Except.ok (bw, out)
  | p :: rest =>
    match BatchWriter.call add p.1 p.2 bw out with
    | Except.ok (bw2, out2) => BatchWriter.feed add rest bw2 out2
    | Except.error e => Except.error e

/-- Parameter count of BatchWriter.__exit__ as declared in the source
(line 124): exception_type, exception_value, traceback — the self
parameter is missing. -/
def BatchWriter.exitDeclaredParams : Nat := 3

/-- Argument count with which the with-statement protocol invokes
__exit__ on the instance: the receiver plus exception type, value and
traceback. -/
def BatchWriter.exitProtocolArgs : Nat := 4

/-- CPython call semantics for a bound method taking only positional
parameters: the body runs only when the declared parameter count
matches the supplied argument count; otherwise the call itself raises
TypeError and the body never executes. -/
def boundMethodCall (declaredParams suppliedArgs : Nat)
    (body : Except (PyErr × Writes) Writes) (out : Writes) :
    Except (PyErr × Writes) Writes :=
  if declaredParams = suppliedArgs then body else Except.error (PyErr.typeError, out)

/-- Body of BatchWriter.__exit__ (source lines 125-127): a final flush
with last=True when unflushed pairs remain, then close. close (lines
148-153) clears the two buffers and delegates to the wrapped writer's
close; the buffer clearing has no observable effect on the write trace,
and the delegated FifoWriter.close is analysed separately below. -/
def BatchWriter.exitBody (bw : BatchWriter) (out : Writes) :
    Except (PyErr × Writes) Writes :=
  match (if bw.index > 0 then BatchWriter.flush true bw out else Except.ok (bw, out)) with
  | Except.ok (_, out2) => Except.ok out2
  | Except.error e => Except.error e

/-- Exit of a with-BatchWriter scope: the protocol invokes the bound
__exit__ with four arguments against its three declared parameters
(source line 124), so the teardown body is reached only if those counts
agree. -/
def BatchWriter.scopeExit (bw : BatchWriter) (out : Writes) :
    Except (PyErr × Writes) Writes :=
  boundMethodCall BatchWriter.exitDeclaredParams BatchWriter.exitProtocolArgs
    (BatchWriter.exitBody bw out) out

/-- Translation of FastqWriter._create_batch_list (source lines
161-162): the four-cell template None, None, "+", None repeated
batch_size times. -/
def FastqWriter.create_batch_list (batch_size : Nat) : List (Option String) :=
  (List.replicate batch_size [none, none, some "+", none]).flatten

/-- Translation of FastqWriter.add_to_batch (source lines 164-167):
cell index receives "@" followed by the name, cell index+1 the
sequence, cell index+3 the qualities; cell index+2 keeps the "+" of the
template. Declared without self in the source, as noted at
BatchWriter.call. -/
def FastqWriter.add_to_batch (name sequence qualities : String)
    (batch : List (Option String)) (index : Nat) : List (Option String) :=
  ((batch.set index (some ("@" ++ name))).set (index + 1) (some sequence)).set
    (index + 3) (some qualities)

/-- Initial state of a FastqWriter (source lines 155-162 with
BatchWriter.__init__, lines 92-99): lines_per_row 4, both buffers the
FASTQ template list, index 0. The source __init__ has two slips
recorded with the claims they decide: it accepts only batch_size though
every call site passes (writer, batch_size), and its super().__init__
call omits the lines_per_row argument; the wrapped writer is modelled
by the Writes trace. os.linesep is a newline on the target platform. -/
def FastqWriter.init (batch_size : Nat) (linesep : String) : BatchWriter :=
  ⟨batch_size, 4, linesep,
    FastqWriter.create_batch_list batch_size,
    FastqWriter.create_batch_list batch_size, 0⟩

/-- A writable file endpoint as held by FifoWriter: the path it was
opened from and whether it has been closed. -/
structure FileHandle where
  path : String
  closed : Bool
deriving DecidableEq

/-- A Python value passed to os.remove: either a path string or a file
object. -/
inductive PyVal where
  | str (s : String)
  | file (f : FileHandle)
deriving DecidableEq

/-- Python os.remove: accepts a path and unlinks it; a file object is
not path-like, so passing one raises TypeError. -/
def os_remove (v : PyVal) : Except PyErr Unit :=
  match v with
  | PyVal.str _ => Except.ok ()
  | PyVal.file _ => Except.error PyErr.typeError

/-- Python file.flush: raises ValueError on a file that is already
closed. -/
def fileFlush (f : FileHandle) : Except PyErr FileHandle :=
  if f.closed then Except.error PyErr.valueError else Except.ok f

/-- Python file.close: marks the handle closed. -/
def fileClose (f : FileHandle) : FileHandle :=
  { f with closed := true }

/-- State of a FifoWriter (source lines 177-179): the two opened FIFO
endpoints. __init__ rebinds the attributes fifo1 and fifo2 from the
path arguments to the opened file objects. -/
structure FifoWriter where
  fifo1 : FileHandle
  fifo2 : FileHandle
deriving DecidableEq

/-- One iteration of the loop of FifoWriter.close (source lines
186-191): try fifo.flush(); fifo.close() finally os.remove(fifo). The
finally clause runs os.remove on the file object itself (the path
attribute was overwritten in __init__); an exception raised in the
finally clause replaces the body's outcome. -/
def FifoWriter.closeOne (f : FileHandle) : Except PyErr FileHandle :=
  let body : Except PyErr FileHandle :=
    match fileFlush f with
    | Except.ok f2 => Except.ok (fileClose f2)
    | Except.error e => Except.error e
  match os_remove (PyVal.file f) with
  | Except.error e => Except.error e
  | Except.ok _ => body

/-- Translation of FifoWriter.close (source lines 185-191): the loop
handles fifo1 then fifo2; an exception escaping the first iteration
aborts the loop before the second endpoint is touched. -/
def FifoWriter.close (w : FifoWriter) : Except PyErr FifoWriter :=
  match FifoWriter.closeOne w.fifo1 with
  | Except.error e => Except.error e
  | Except.ok f1 =>
    match FifoWriter.closeOne w.fifo2 with
    | Except.error e => Except.error e
    | Except.ok f2 => Except.ok ⟨f1, f2⟩

/-- Events of one FifoWriter.__call__ under a semantics that separates
issuing a write on a side (1 or 2) from that write running to
completion (a FIFO write blocks until the reader drains it). -/
inductive WriteEvent where
  | issue (side : Nat) (data : String)
  | complete (side : Nat)
deriving DecidableEq

/-- Test for the issue event of a given side. -/
def isIssue (side : Nat) (e : WriteEvent) : Bool :=
  match e with
  | WriteEvent.issue s _ => s == side
  | WriteEvent.complete _ => false

/-- Test for the completion event of a given side. -/
def isComplete (side : Nat) (e : WriteEvent) : Bool :=
  match e with
  | WriteEvent.issue _ _ => false
  | WriteEvent.complete s => s == side

/-- Event trace of FifoWriter.__call__ (source lines 181-183) under
Python's sequential semantics: self.fifo1.write(read1_str) is a
blocking call that is issued and runs to completion before the next
statement issues self.fifo2.write(read2_str). -/
def FifoWriter.callEvents (read1_str read2_str : String) : List WriteEvent :=
  [WriteEvent.issue 1 read1_str, WriteEvent.complete 1,
   WriteEvent.issue 2 read2_str, WriteEvent.complete 2]

/-- Rendering of the spec sentence behind claim C9, stated over an
event trace (this definition follows the spec's words, to be compared
with the trace of the source): both sides' writes are issued before
either write completes or blocks, so neither issuance waits on the
other side's consumer. -/
def spec_bothWritesIssuedFirst (tr : List WriteEvent) : Bool :=
  match tr.findIdx? (isIssue 1), tr.findIdx? (isIssue 2),
        tr.findIdx? (fun e => isComplete 1 e || isComplete 2 e) with
  | some i1, some i2, some c => decide (i1 < c) && decide (i2 < c)
  | some _, some _, none => true
  | _, _, _ => false

/-- Outcome of a pipeline run as the spec describes it: success, or a
failure of the external tool carrying its exit code. -/
inductive PipelineOutcome where
  | ok
  | toolFailure (exitCode : Int)
deriving DecidableEq

/-- Python Popen.wait: waits for the child and returns its exit code. -/
def popenWait (exitCode : Int) : Int := exitCode

/-- Completion step of star_pipeline (source lines 217-224): after the
writer scope closes the pipes, the statement proc.wait() on line 224
evaluates the child's exit code and discards it; the function then
returns with no inspection of the code, and Popen.__exit__ raises
nothing for a non-zero exit. -/
def star_pipeline_completion (exitCode : Int) : PipelineOutcome :=
  let _wait_result := popenWait exitCode
  PipelineOutcome.ok

/-- C1: the claim says that M pairs pushed through a BatchWriter of
capacity N reach the underlying writer as exactly M line-groups per
side, in order, for every M and N. On the code this fails already at
M = 1, N = 3: the first call sets index to lines_per_row = 4, the flush
guard compares that line count with batch_size = 3 and fires, and the
flush joins the full 12-cell arrays whose unpopulated cells are still
None, raising TypeError — the writer receives zero blocks instead of
one line-group per side. -/
theorem batch_completeness_fails_on_first_flush :
    BatchWriter.call FastqWriter.add_to_batch
      ⟨"A1", "ACGT", "IIII"⟩ ⟨"A1", "TTTT", "JJJJ"⟩
      (FastqWriter.init 3 "\n") []
    = Except.error (PyErr.typeError, []) := by rfl

/-- C2: the claim says a flush of a partially filled buffer emits
exactly the valid populated front of each side's array. On the code,
the state reached after buffering one pair in a FastqWriter of
batch_size 2 — index 4 with only 4 of the 8 cells populated — takes the
full-array branch of flush (4 < 2 is false), so the unpopulated tail
enters the join and TypeError is raised instead of the 4 valid lines
being emitted; the second conjunct shows those 4 valid front cells were
all populated. -/
theorem flush_leaks_unpopulated_tail :
    BatchWriter.flush false
      ⟨2, 4, "\n",
        FastqWriter.add_to_batch "B1" "AAAA" "IIII" (FastqWriter.create_batch_list 2) 0,
        FastqWriter.add_to_batch "B1" "CCCC" "JJJJ" (FastqWriter.create_batch_list 2) 0,
        4⟩ []
    = Except.error (PyErr.typeError, [])
  ∧ (FastqWriter.add_to_batch "B1" "AAAA" "IIII" (FastqWriter.create_batch_list 2) 0).take 4
    = [some "@B1", some "AAAA", some "+", some "IIII"] := by
  exact ⟨rfl, rfl⟩

/-- C3: the claim's example says that with batch_size 2 and
lines_per_row 4, pushing P1, P2, P3 yields a first flush of 8 lines per
side plus one separator write, then a final flush of 4 lines with no
separator. On the code the run dies at P1: the flush guard fires at
index 4 ≥ batch_size 2 and the full-array join of the half-empty buffer
raises TypeError, so the writer never receives any block or separator. -/
theorem separator_example_fails :
    BatchWriter.feed FastqWriter.add_to_batch
      [(⟨"P1", "ACGT", "IIII"⟩, ⟨"P1", "TGCA", "JJJJ"⟩),
       (⟨"P2", "CCCC", "IIII"⟩, ⟨"P2", "GGGG", "JJJJ"⟩),
       (⟨"P3", "AAAA", "IIII"⟩, ⟨"P3", "TTTT", "JJJJ"⟩)]
      (FastqWriter.init 2 "\n") []
    = Except.error (PyErr.typeError, []) := by rfl

/-- C4: the claim says that on exit of a BatchWriter scope, normal or
erroneous, a final flush runs when pairs remain and close is then
called. On the code the __exit__ of source line 124 is declared without
a self parameter, so the four-argument protocol invocation of the bound
method raises TypeError before the body can run: for every state and
trace, scope exit yields that TypeError and neither flush nor close
executes, on either path. -/
theorem exit_teardown_never_runs :
    ∀ (bw : BatchWriter) (out : Writes),
      BatchWriter.scopeExit bw out = Except.error (PyErr.typeError, out) := by
  intro bw out
  rfl

/-- C5: sra_read_pair returns a pair exactly when the record has two
fragments and both report paired, and raises the not-paired Exception
otherwise, so an error leaves no partial pair for the consumer; in the
returned pair both mates carry the record's read name. -/
theorem sra_read_pair_pairing_guard :
    (∀ r : SraRecord,
      (sra_read_pair r).isOk
        = (decide (r.fragments.length = 2) && r.fragments.all (fun f => f.paired)))
  ∧ (∀ r : SraRecord,
      (match sra_read_pair r with
       | Except.ok p => decide (p.1.name = r.name) && decide (p.2.name = r.name)
       | Except.error _ => true) = true) := by
  constructor
  · intro r
    rcases r with ⟨name, frags⟩
    rcases frags with _ | ⟨f1, frags⟩
    · rfl
    rcases frags with _ | ⟨f2, frags⟩
    · rfl
    rcases frags with _ | ⟨f3, frags⟩
    · rcases f1 with ⟨b1, q1, p1⟩
      rcases f2 with ⟨b2, q2, p2⟩
      cases p1 <;> cases p2 <;> rfl
    · have h : (f1 :: f2 :: f3 :: frags).length ≠ 2 := by
        simp only [List.length_cons]
        omega
      simp [sra_read_pair, h, Except.isOk, Except.toBool]
  · intro r
    rcases r with ⟨name, frags⟩
    rcases frags with _ | ⟨f1, frags⟩
    · rfl
    rcases frags with _ | ⟨f2, frags⟩
    · rfl
    rcases frags with _ | ⟨f3, frags⟩
    · rcases f1 with ⟨b1, q1, p1⟩
      rcases f2 with ⟨b2, q2, p2⟩
      cases p1 <;> cases p2 <;> simp [sra_read_pair]
    · have h : (f1 :: f2 :: f3 :: frags).length ≠ 2 := by
        simp only [List.length_cons]
        omega
      simp [sra_read_pair, h]

/-- C6: the claim says sra_reader yields exactly min(T, m) pairs. The
loop range(1, max_reads, batch_size) excludes max_reads, so the window
beginning at record max_reads is never requested: a collection of
T = 1 reads yields no record index at all (instead of record 1), and
T = 5 with batch_size 2 yields records 1 to 4 only (instead of 1 to 5). -/
theorem sra_reader_drops_final_read :
    sra_reader_indices 1 1000 none = []
  ∧ sra_reader_indices 5 2 none = [1, 2, 3, 4] := by
  exact ⟨rfl, rfl⟩

/-- C7: the claim says closing the writer stack twice, or after a
failed flush, never raises. On the code even the first FifoWriter.close
raises: the finally clause of the loop hands the open file object to
os.remove, which requires a path, so TypeError escapes for every
writer state — nothing is swallowed and the second endpoint is never
reached. -/
theorem fifo_close_always_raises :
    ∀ w : FifoWriter, FifoWriter.close w = Except.error PyErr.typeError := by
  intro w
  rfl

/-- C8 counterexample: with the child process exiting with code 2, the
completion step of star_pipeline produces the plain ok outcome, not the
tool-failure outcome carrying exit code 2 that the claim requires. -/
theorem star_completion_exit_code_two_cex :
    star_pipeline_completion 2 = PipelineOutcome.ok
  ∧ decide (star_pipeline_completion 2 = PipelineOutcome.toolFailure 2) = false := by
  exact ⟨rfl, rfl⟩

/-- C8 amended: star_pipeline awaits the child's exit code after the
writer scope has closed the pipes, but the code returned by the wait is
discarded — the pipeline completes with the ok outcome whatever the
exit code, surfacing no failure to the caller. -/
theorem star_completion_always_ok :
    ∀ exitCode : Int, star_pipeline_completion exitCode = PipelineOutcome.ok := by
  intro exitCode
  rfl

/-- C9 counterexample: on a concrete paired write, the event trace of
FifoWriter.__call__ falsifies the claim that both sides' writes are
issued before either can block waiting on its consumer: the side-2
write is issued only after the side-1 write has already completed or
blocked. -/
theorem fifo_call_not_independently_issued :
    spec_bothWritesIssuedFirst (FifoWriter.callEvents "AAAA" "TTTT") = false := by rfl

/-- C9 amended: FifoWriter.__call__ writes the two FIFOs strictly
sequentially — for every pair of blocks, side 1's write completes at
position 1 of the event trace before side 2's write is issued at
position 2, a fully blocking side-1-then-side-2 order. -/
theorem fifo_call_strictly_sequential :
    ∀ read1_str read2_str : String,
      (FifoWriter.callEvents read1_str read2_str).findIdx? (isComplete 1) = some 1
    ∧ (FifoWriter.callEvents read1_str read2_str).findIdx? (isIssue 2) = some 2 := by
  intro read1_str read2_str
  exact ⟨rfl, rfl⟩

/-- C10: the claim says that when the number of pushed pairs is a
positive multiple of the flush threshold, the buffer is empty at scope
exit and the stream ends with a trailing separator pair. On the code,
pushing M = 2 pairs through a FastqWriter of batch_size 2 never reaches
that state: the first pair already trips the flush guard (index 4 ≥
batch_size 2) and the full-array join of the half-filled buffer raises
TypeError, so no data block and no separator is ever written. -/
theorem multiple_of_capacity_fails :
    BatchWriter.feed FastqWriter.add_to_batch
      [(⟨"Q1", "ACAC", "IIII"⟩, ⟨"Q1", "GTGT", "JJJJ"⟩),
       (⟨"Q2", "CACA", "IIII"⟩, ⟨"Q2", "TGTG", "JJJJ"⟩)]
      (FastqWriter.init 2 "\n") []
    = Except.error (PyErr.typeError, []) := by rfl
